import Mathlib

/-!
Verification of the idempotent RHCOS AMI release pipeline in
`create_rhcos_ami.py` (class `RHCOSRelease` and its stage methods
`download`, `unpack`, `upload`, `existing_snapshot`, `import_snapshot`,
`existing_image`, `register_image`, `create_ami`).

The Python program is shallowly embedded as pure Lean functions in explicit
state-passing style.  The world state (`World`) records the local scratch
files, the object-store contents, the provider snapshots and images, and a
trace of externally visible operations (`Event`).  External collaborators
(the HTTP server and the provider's asynchronous import-task status) are an
oracle (`Env`) passed to each function.  Time in the poll loop is discrete:
each iteration of the `while True` loop takes exactly one `time.sleep(10)`
interval, so the k-th status check happens at elapsed second `10 * k`.
-/

/-- A byte payload.  `gz d` is a well-formed gzip stream whose decompressed
content is `d`; `raw t` is any other byte string (in particular a corrupt or
non-gzip payload such as an HTML error page). -/
inductive Data where
  | raw (text : String)
  | gz (inner : Data)
deriving DecidableEq, Repr

/-- Models `gzip.open` + `shutil.copyfileobj`: succeeds exactly on
well-formed gzip data, and fails (Python raises `BadGzipFile`/`EOFError`)
on anything else. -/
def gunzip : Data → Option Data
  | .gz d => some d
  | .raw _ => none

/-- One record of `describe_import_snapshot_tasks(...)['ImportSnapshotTasks'][0]['SnapshotTaskDetail']`. -/
structure TaskDetail where
  status : String
  snapshotId : String
deriving DecidableEq, Repr

/-- Result of the poll loop in `import_snapshot`: either the task reached
status `completed` (carrying the snapshot id and the elapsed seconds at that
check) or the `time.time() > timeout` guard fired (carrying the elapsed
seconds at the raise). -/
inductive PollResult where
  | completed (snapshotId : String) (elapsed : Nat)
  | timedOut (elapsed : Nat)
deriving DecidableEq, Repr

/-- The `while True` poll loop of `import_snapshot`, with `detail t` the
task status observed at elapsed second `t`.  Body, in source order: query
the status; if `completed`, return; if `time.time() > timeout` (deadline
`60 * max_time = 600` seconds after job start), raise; else sleep 10
seconds and repeat.  Structural fuel: from `t = 0` the loop check times are
`0, 10, ..., 610` (the guard `600 < t` fires at `t = 610` at the latest),
so 62 iterations always suffice and the fuel-exhausted case is unreachable
from `pollAux detail 62 0`. -/
def pollAux (detail : Nat → TaskDetail) : Nat → Nat → PollResult
  | 0, t => .timedOut t
  | fuel + 1, t =>
    if (detail t).status = "completed" then .completed (detail t).snapshotId t
    else if 600 < t then .timedOut t
    else pollAux detail fuel (t + 10)

/-- The poll loop as run by `import_snapshot`, from job start. -/
def pollFrom (detail : Nat → TaskDetail) : PollResult :=
  pollAux detail 62 0

/-- A `requests.get` response: status code and body bytes. -/
structure HttpResponse where
  statusCode : Nat
  content : Data
deriving DecidableEq, Repr

/-- External oracle: the HTTP server, and the provider's import-task status.
`taskDetail n t` is the status of the `n`-th import task started in this
run, `t` seconds after it was started. -/
structure Env where
  http : String → HttpResponse
  taskDetail : Nat → Nat → TaskDetail

/-- A provider snapshot (owned by `self`) with its tags. -/
structure Snapshot where
  id : String
  tags : List (String × String)
deriving DecidableEq, Repr

/-- A registered provider image, with the fixed parameters `register_image`
passes to `ec2.register_image` and the launch-permission state touched by
`ec2.modify_image_attribute`. -/
structure Image where
  id : String
  name : String
  description : String
  architecture : String
  rootDeviceName : String
  rootSnapshotId : Option String
  rootDeleteOnTermination : Bool
  rootVolumeType : String
  secondDeviceName : String
  secondVirtualName : String
  enaSupport : Bool
  sriovNetSupport : String
  virtualizationType : String
  launchPermissionAll : Bool
deriving DecidableEq, Repr

/-- An object in the S3 store. -/
structure S3Object where
  bucket : String
  key : String
  data : Data
deriving DecidableEq, Repr

/-- Externally visible operations, recorded in program order. -/
inductive Event where
  | httpGet (url : String)
  | fileWrite (path : String)
  | gunzipFile (path : String)
  | s3List (bucket : String) (keyStart : String)
  | s3Put (bucket : String) (key : String)
  | ec2DescribeSnapshots (version : String)
  | ec2ImportSnapshot (bucket : String) (key : String)
  | ec2DescribeTask (taskId : String)
  | ec2CreateTags (resourceId : String)
  | ec2CancelImportTask (taskId : String)
  | ec2DescribeImages (name : String)
  | ec2RegisterImage (name : String)
  | ec2ModifyImageAttribute (imageId : String)
deriving DecidableEq, Repr

/-- The world state threaded through every stage: local files, the object
store, the provider's snapshots and images, counters used to mint fresh
provider identifiers, and the event trace. -/
structure World where
  files : List (String × Data)
  s3 : List S3Object
  snapshots : List Snapshot
  images : List Image
  taskCounter : Nat
  imageCounter : Nat
  events : List Event
deriving DecidableEq, Repr

def World.log (s : World) (e : Event) : World :=
  { s with events := s.events ++ [e] }

def World.logMany (s : World) (l : List Event) : World :=
  { s with events := s.events ++ l }

/-- `os.path.exists`. -/
def World.pathExists (s : World) (p : String) : Bool :=
  s.files.any (fun f => f.1 == p)

/-- `open(p, 'rb').read()`: content of the file at `p`, if present. -/
def World.readFile (s : World) (p : String) : Option Data :=
  ((s.files.filter (fun f => f.1 == p)).head?).map (fun f => f.2)

/-- `open(p, 'wb')` followed by a full write: truncates any previous file at
`p` and records the write. -/
def World.writeFile (s : World) (p : String) (d : Data) : World :=
  { s with files := s.files.filter (fun f => f.1 != p) ++ [(p, d)],
           events := s.events ++ [Event.fileWrite p] }

/-- Construction-time failure of `RHCOSRelease.__init__`: `re.search`
returned `None` and `.group(1)` raised (`AttributeError`; the spec's
taxonomy calls this `InvalidVersionFormat`). -/
inductive InitError where
  | noneGroup
deriving DecidableEq, Repr

/-- `re.search(r'(^\d)', s)`: the leading digit of `s`, if `s` starts with a
digit. -/
def searchVersionX (s : String) : Option String :=
  match s.data with
  | c :: _ => if c.isDigit then some (String.mk [c]) else none
  | [] => none

/-- `re.search(r'(^\d\.\d)', s)`: the leading `digit.digit` group of `s`, if
present. -/
def searchVersionY (s : String) : Option String :=
  match s.data with
  | c0 :: c1 :: c2 :: _ =>
    if c0.isDigit && (c1 == '.') && c2.isDigit
    then some (String.mk [c0, c1, c2]) else none
  | _ => none

/-- `Base._base_url`. -/
def base_url : String := "http://mirror.openshift.com/pub/openshift-v4/dependencies/rhcos"

/-- `tempfile.gettempdir()` (modelled as the usual `/tmp`; no claim depends
on its value). -/
def tempDir : String := "/tmp"

/-- The fields computed by `RHCOSRelease.__init__`: all pure functions of the
version string. -/
structure RHCOSRelease where
  version : String
  version_x : String
  version_y : String
  filename : String
  filename_gzip : String
  download_url : String
  download_path : String
  unpack_path : String
deriving DecidableEq, Repr

/-- `RHCOSRelease.__init__(version)`: derive `version_x` and `version_y` by
regex search (failing construction when either search returns `None`), then
the filenames, download URL and local paths. -/
def mkRHCOSRelease (version : String) : Except InitError RHCOSRelease :=
  match searchVersionX version with
  | none => .error .noneGroup
  | some vx =>
    match searchVersionY version with
    | none => .error .noneGroup
    | some vy =>
      let filename := "rhcos-" ++ version ++ "-x86_64-aws.x86_64.vmdk"
      let filename_gzip := "rhcos-" ++ version ++ "-x86_64-aws.x86_64.vmdk.gz"
      .ok { version := version
            version_x := vx
            version_y := vy
            filename := filename
            filename_gzip := filename_gzip
            download_url := base_url ++ "/" ++ vy ++ "/" ++ version ++ "/" ++ filename_gzip
            download_path := tempDir ++ "/" ++ filename_gzip
            unpack_path := tempDir ++ "/" ++ filename }

/-- `RHCOSRelease.download`: skip if the compressed path exists; otherwise
GET the download URL and write the response body to the compressed path
(the body is written whatever the status code — the code never checks it). -/
def download (env : Env) (r : RHCOSRelease) (s : World) : World :=
  if s.pathExists r.download_path then s
  else
    let resp := env.http r.download_url
    let s1 := s.log (.httpGet r.download_url)
    s1.writeFile r.download_path resp.content

/-- Stage error raised by a pipeline run. -/
inductive Err where
  | badGzip (path : String)
  | fileMissing (path : String)
  | importTimeout (taskId : String) (maxMinutes : Nat)
deriving DecidableEq, Repr

/-- `RHCOSRelease.unpack`: skip if the decompressed path exists; else ensure
the compressed file (calling `download` if absent), then gunzip it into the
decompressed path.  A corrupt gzip stream raises. -/
def unpack (env : Env) (r : RHCOSRelease) (s : World) : Except Err Unit × World :=
  if s.pathExists r.unpack_path then (.ok (), s)
  else
    let s1 := if s.pathExists r.download_path then s else download env r s
    match s1.readFile r.download_path with
    | none => (.error (.fileMissing r.download_path), s1)
    | some d =>
      let s2 := s1.log (.gunzipFile r.download_path)
      match gunzip d with
      | none => (.error (.badGzip r.download_path), s2)
      | some out => (.ok (), s2.writeFile r.unpack_path out)

/-- `str.startswith`-style test on the character lists (same meaning as
`String.isPrefixOf`, stated on `List Char` so that it evaluates by
`decide`). -/
def strStartsWith (keyStart s : String) : Bool :=
  keyStart.data.isPrefixOf s.data

/-- `s3.list_objects_v2(Bucket=bucket, Prefix=keyStart).get('KeyCount', 0)`:
the number of stored objects in `bucket` whose key starts with `keyStart`. -/
def s3KeyCount (s : World) (bucket : String) (keyStart : String) : Nat :=
  (s.s3.filter (fun o => o.bucket == bucket && strStartsWith keyStart o.key)).length

/-- `RHCOSRelease.upload`: skip if an object keyed by the filename prefix is
already stored; else ensure the decompressed file (calling `unpack` if
absent) and upload it under the exact filename as key. -/
def upload (env : Env) (r : RHCOSRelease) (bucket : String) (s : World) :
    Except Err Unit × World :=
  let s1 := s.log (.s3List bucket r.filename)
  if s3KeyCount s1 bucket r.filename > 0 then (.ok (), s1)
  else
    match (if s1.pathExists r.unpack_path then (.ok (), s1) else unpack env r s1 :
        Except Err Unit × World) with
    | (.error e, s2) => (.error e, s2)
    | (.ok _, s2) =>
      match s2.readFile r.unpack_path with
      | none => (.error (.fileMissing r.unpack_path), s2)
      | some d =>
        let s3 := s2.log (.s3Put bucket r.filename)
        (.ok (), { s3 with s3 := s3.s3 ++ [⟨bucket, r.filename, d⟩] })

/-- The snapshots matching `ec2.describe_snapshots(Filters=[tag:rhcos_version
= version], OwnerIds=['self'])`, in the provider's response order. -/
def snapshotMatches (s : World) (version : String) : List Snapshot :=
  s.snapshots.filter (fun snap => decide (("rhcos_version", version) ∈ snap.tags))

/-- `RHCOSRelease.existing_snapshot`: tag-filtered lookup; the id of the
first matching snapshot, or `None` when there is no match. -/
def existing_snapshot (r : RHCOSRelease) (s : World) : Option String × World :=
  let s1 := s.log (.ec2DescribeSnapshots r.version)
  match snapshotMatches s r.version with
  | [] => (none, s1)
  | snap :: _ => (some snap.id, s1)

/-- On import-task completion the provider's snapshot materializes (fresh
ids leave existing snapshots untouched). -/
def ensureSnapshotPresent (l : List Snapshot) (sid : String) : List Snapshot :=
  if l.any (fun snap => snap.id == sid) then l else l ++ [⟨sid, []⟩]

/-- `ec2.create_tags(Resources=[sid], Tags=[kv])`: append the tag to every
snapshot with id `sid`. -/
def tagSnapshot (l : List Snapshot) (sid : String) (kv : String × String) :
    List Snapshot :=
  l.map (fun snap => if snap.id = sid then { snap with tags := snap.tags ++ [kv] } else snap)

/-- `RHCOSRelease.import_snapshot`: return an existing tagged snapshot if
one is found; else ensure the stored object (calling `upload` when the
prefix count is zero), start the import task, poll its status every 10
seconds against the 10-minute deadline (raising `RuntimeError` — the
message carries the task id and `max_time = 10` minutes), and on completion
tag the produced snapshot with `rhcos_version` and return its id. -/
def import_snapshot (env : Env) (r : RHCOSRelease) (bucket : String) (s : World) :
    Except Err String × World :=
  match existing_snapshot r s with
  | (some sid, s1) => (.ok sid, s1)
  | (none, s1) =>
    match (if s3KeyCount (s1.log (.s3List bucket r.filename)) bucket r.filename > 0
           then (.ok (), s1.log (.s3List bucket r.filename))
           else upload env r bucket (s1.log (.s3List bucket r.filename)) :
           Except Err Unit × World) with
    | (.error e, s3) => (.error e, s3)
    | (.ok _, s3) =>
      match pollFrom (env.taskDetail s3.taskCounter) with
      | .timedOut elapsed =>
        let taskId := "import-snap-" ++ toString s3.taskCounter
        let s5 := ({ s3 with taskCounter := s3.taskCounter + 1 }).log
          (.ec2ImportSnapshot bucket r.filename)
        let s6 := s5.logMany (List.replicate (elapsed / 10 + 1) (.ec2DescribeTask taskId))
        (.error (.importTimeout taskId 10), s6)
      | .completed sid elapsed =>
        let taskId := "import-snap-" ++ toString s3.taskCounter
        let s5 := ({ s3 with taskCounter := s3.taskCounter + 1 }).log
          (.ec2ImportSnapshot bucket r.filename)
        let s6 := s5.logMany (List.replicate (elapsed / 10 + 1) (.ec2DescribeTask taskId))
        let s7 := { s6 with snapshots := ensureSnapshotPresent s6.snapshots sid }
        let s8 := s7.log (.ec2CreateTags sid)
        let s9 := { s8 with snapshots := tagSnapshot s8.snapshots sid ("rhcos_version", r.version) }
        (.ok sid, s9)

/-- The images matching `ec2.describe_images(Filters=[name = rhcos-version],
Owners=['self'])`, in the provider's response order. -/
def imageMatches (s : World) (version : String) : List Image :=
  s.images.filter (fun img => img.name == "rhcos-" ++ version)

/-- `RHCOSRelease.existing_image`: name-filtered lookup; the id of the first
matching image, or `None` when there is no match. -/
def existing_image (r : RHCOSRelease) (s : World) : Option String × World :=
  let s1 := s.log (.ec2DescribeImages ("rhcos-" ++ r.version))
  match imageMatches s r.version with
  | [] => (none, s1)
  | img :: _ => (some img.id, s1)

/-- `RHCOSRelease.register_image`: return an existing image id if one is
found (for either value of `public`, with no further provider call); else
look up the snapshot id via `existing_snapshot` — note: not via
`import_snapshot` — and register a new image with the fixed block-device
mappings, architecture, virtualization and boot constants, making it public
afterwards when `public` is set. -/
def register_image (r : RHCOSRelease) (pub : Bool) (s : World) : String × World :=
  match existing_image r s with
  | (some iid, s1) => (iid, s1)
  | (none, s1) =>
    match existing_snapshot r s1 with
    | (snapshotId, s2) =>
      let iid := "ami-" ++ toString s2.imageCounter
      let s3 := { s2 with imageCounter := s2.imageCounter + 1 }
      let s4 := s3.log (.ec2RegisterImage ("rhcos-" ++ r.version))
      let img : Image :=
        { id := iid
          name := "rhcos-" ++ r.version
          description := "OpenShift 4 " ++ r.version
          architecture := "x86_64"
          rootDeviceName := "/dev/xvda"
          rootSnapshotId := snapshotId
          rootDeleteOnTermination := true
          rootVolumeType := "gp2"
          secondDeviceName := "/dev/xvdb"
          secondVirtualName := "ephemeral0"
          enaSupport := true
          sriovNetSupport := "simple"
          virtualizationType := "hvm"
          launchPermissionAll := false }
      let s5 := { s4 with images := s4.images ++ [img] }
      if pub then
        let s6 := s5.log (.ec2ModifyImageAttribute iid)
        let grant := fun (im : Image) =>
          if im.id = iid then { im with launchPermissionAll := true } else im
        let s7 := { s6 with images := s6.images.map grant }
        (iid, s7)
      else (iid, s5)

/-- `RHCOSRelease.create_ami`: return an existing image id if one is found;
else run every stage in order — `download`, `unpack`, `upload`,
`import_snapshot` (whose returned id is discarded), `register_image`. -/
def create_ami (env : Env) (r : RHCOSRelease) (bucket : String) (pub : Bool)
    (s : World) : Except Err String × World :=
  match existing_image r s with
  | (some iid, s1) => (.ok iid, s1)
  | (none, s1) =>
    let s2 := download env r s1
    match unpack env r s2 with
    | (.error e, s3) => (.error e, s3)
    | (.ok _, s3) =>
      match upload env r bucket s3 with
      | (.error e, s4) => (.error e, s4)
      | (.ok _, s4) =>
        match import_snapshot env r bucket s4 with
        | (.error e, s5) => (.error e, s5)
        | (.ok _, s5) =>
          let p := register_image r pub s5
          (.ok p.1, p.2)

/-! ### Concrete fixtures -/

/-- The `RHCOSRelease` for version `4.8.2` (the spec's running example). -/
def rel482 : RHCOSRelease :=
  { version := "4.8.2"
    version_x := "4"
    version_y := "4.8"
    filename := "rhcos-4.8.2-x86_64-aws.x86_64.vmdk"
    filename_gzip := "rhcos-4.8.2-x86_64-aws.x86_64.vmdk.gz"
    download_url := "http://mirror.openshift.com/pub/openshift-v4/dependencies/rhcos/4.8/4.8.2/rhcos-4.8.2-x86_64-aws.x86_64.vmdk.gz"
    download_path := "/tmp/rhcos-4.8.2-x86_64-aws.x86_64.vmdk.gz"
    unpack_path := "/tmp/rhcos-4.8.2-x86_64-aws.x86_64.vmdk" }

/-- Empty world: no files, no stored objects, no snapshots, no images. -/
def emptyWorld : World :=
  { files := [], s3 := [], snapshots := [], images := [],
    taskCounter := 0, imageCounter := 0, events := [] }

/-- Oracle whose HTTP server succeeds with a valid gzip body and whose
tasks for snapshot conversion complete at the first status check. -/
def envGood : Env :=
  { http := fun _ => { statusCode := 200, content := .gz (.raw "rhcos-disk") }
    taskDetail := fun _ _ => { status := "completed", snapshotId := "snap-1" } }

/-- Oracle whose HTTP server responds 404 with a non-gzip error page. -/
def env404 : Env :=
  { http := fun _ => { statusCode := 404, content := .raw "404 Not Found" }
    taskDetail := fun _ _ => { status := "completed", snapshotId := "snap-1" } }

/-- Oracle whose import tasks never leave status `active`. -/
def envNever : Env :=
  { http := fun _ => { statusCode := 200, content := .gz (.raw "rhcos-disk") }
    taskDetail := fun _ _ => { status := "active", snapshotId := "" } }

/-- Oracle whose import tasks report `completed` from elapsed second 610 on
(i.e. first observable at the check that happens just past the deadline). -/
def envLate : Env :=
  { http := fun _ => { statusCode := 200, content := .gz (.raw "rhcos-disk") }
    taskDetail := fun _ t =>
      if 610 ≤ t then { status := "completed", snapshotId := "snap-late" }
      else { status := "active", snapshotId := "" } }

/-- Is this event the start of a provider import task
(`ec2.import_snapshot`)? -/
def isImportCall : Event → Bool
  | .ec2ImportSnapshot _ _ => true
  | _ => false

/-- Is this event a gzip decompression? -/
def isGunzip : Event → Bool
  | .gunzipFile _ => true
  | _ => false

/-- World holding only the stored artifact object for `4.8.2` in bucket
`bkt` (upload stage already satisfied, nothing else). -/
def wS3 : World :=
  { emptyWorld with s3 := [⟨"bkt", "rhcos-4.8.2-x86_64-aws.x86_64.vmdk", .raw "disk"⟩] }

/-- World holding only the decompressed local file for `4.8.2` (the
compressed file is absent). -/
def wUnpacked : World :=
  { emptyWorld with files := [("/tmp/rhcos-4.8.2-x86_64-aws.x86_64.vmdk", .raw "disk")] }

/-- A pre-existing registered image named `rhcos-4.8.2`. -/
def img482 : Image :=
  { id := "ami-existing"
    name := "rhcos-4.8.2"
    description := "OpenShift 4 4.8.2"
    architecture := "x86_64"
    rootDeviceName := "/dev/xvda"
    rootSnapshotId := some "snap-old"
    rootDeleteOnTermination := true
    rootVolumeType := "gp2"
    secondDeviceName := "/dev/xvdb"
    secondVirtualName := "ephemeral0"
    enaSupport := true
    sriovNetSupport := "simple"
    virtualizationType := "hvm"
    launchPermissionAll := false }

/-- World holding only the pre-existing image `rhcos-4.8.2`. -/
def wImg : World := { emptyWorld with images := [img482] }

/-! ### Basic state lemmas -/

theorem log_files (s : World) (e : Event) : (s.log e).files = s.files := rfl

theorem log_s3 (s : World) (e : Event) : (s.log e).s3 = s.s3 := rfl

theorem log_snapshots (s : World) (e : Event) : (s.log e).snapshots = s.snapshots := rfl

theorem log_images (s : World) (e : Event) : (s.log e).images = s.images := rfl

theorem log_events (s : World) (e : Event) : (s.log e).events = s.events ++ [e] := rfl

theorem snapshotMatches_log (s : World) (e : Event) (v : String) :
    snapshotMatches (s.log e) v = snapshotMatches s v := rfl

theorem imageMatches_log (s : World) (e : Event) (v : String) :
    imageMatches (s.log e) v = imageMatches s v := rfl

/-- `download` touches only local files and the trace. -/
theorem download_snapshots (env : Env) (r : RHCOSRelease) (s : World) :
    (download env r s).snapshots = s.snapshots := by
  unfold download
  split <;> rfl

/-- `unpack` touches only local files and the trace. -/
theorem unpack_snapshots (env : Env) (r : RHCOSRelease) (s : World) :
    (unpack env r s).2.snapshots = s.snapshots := by
  have h1 : (if s.pathExists r.download_path = true then s else download env r s).snapshots
      = s.snapshots := by
    split
    · rfl
    · exact download_snapshots env r s
  simp only [unpack]
  split
  · rfl
  · split
    · simpa using h1
    · split
      · simpa using h1
      · simpa [World.writeFile, World.log] using h1

/-- `upload` touches only the object store and the trace. -/
theorem upload_snapshots (env : Env) (r : RHCOSRelease) (bucket : String) (s : World) :
    (upload env r bucket s).2.snapshots = s.snapshots := by
  have h1 : (if (s.log (.s3List bucket r.filename)).pathExists r.unpack_path = true
        then ((.ok (), s.log (.s3List bucket r.filename)) : Except Err Unit × World)
        else unpack env r (s.log (.s3List bucket r.filename))).2.snapshots
      = s.snapshots := by
    split
    · rfl
    · exact unpack_snapshots env r _
  simp only [upload]
  split
  · rfl
  · split
    · next e s2 heq => rw [heq] at h1; exact h1
    · next s2 heq =>
      rw [heq] at h1
      split
      · exact h1
      · simpa [World.log] using h1

/-! ### Poll-loop lemmas -/

/-- If none of the statuses the loop can observe is `completed`, the loop
starting at check time `10 * (62 - fuel)` raises at elapsed second 610. -/
theorem pollAux_timedOut_of_never (detail : Nat → TaskDetail)
    (h : ∀ u, u ≤ 610 → (detail u).status ≠ "completed") :
    ∀ fuel, 1 ≤ fuel → fuel ≤ 62 →
      pollAux detail fuel (10 * (62 - fuel)) = .timedOut 610 := by
  intro fuel
  induction fuel with
  | zero => intro h1 _; omega
  | succ fuel ih =>
    intro _ hle
    rw [pollAux]
    rw [if_neg (h (10 * (62 - (fuel + 1))) (by omega))]
    by_cases h600 : 600 < 10 * (62 - (fuel + 1))
    · have hf : fuel = 0 := by omega
      rw [if_pos h600]
      subst hf
      norm_num
    · rw [if_neg h600]
      have hf1 : 1 ≤ fuel := by omega
      have harith : 10 * (62 - (fuel + 1)) + 10 = 10 * (62 - fuel) := by omega
      rw [harith]
      exact ih hf1 (by omega)

/-- If the status is not `completed` at any check up to the deadline but is
`completed` at second 610 (the one check past the deadline), the loop
starting at check time `10 * (62 - fuel)` still returns the snapshot id. -/
theorem pollAux_completed_late (detail : Nat → TaskDetail)
    (h : ∀ u, u ≤ 600 → (detail u).status ≠ "completed")
    (h610 : (detail 610).status = "completed") :
    ∀ fuel, 1 ≤ fuel → fuel ≤ 62 →
      pollAux detail fuel (10 * (62 - fuel)) = .completed (detail 610).snapshotId 610 := by
  intro fuel
  induction fuel with
  | zero => intro h1 _; omega
  | succ fuel ih =>
    intro _ hle
    rw [pollAux]
    by_cases hf : fuel = 0
    · subst hf
      have ht : 10 * (62 - (0 + 1)) = 610 := by norm_num
      rw [ht, if_pos h610]
    · have ht : 10 * (62 - (fuel + 1)) ≤ 600 := by omega
      rw [if_neg (h _ ht)]
      rw [if_neg (by omega : ¬ 600 < 10 * (62 - (fuel + 1)))]
      have harith : 10 * (62 - (fuel + 1)) + 10 = 10 * (62 - fuel) := by omega
      rw [harith]
      exact ih (by omega) (by omega)

/-- Whenever the loop raises the timeout, the status had been queried at the
raising iteration (and found not `completed`), the raise happened strictly
after the 600-second deadline, and no later than one 10-second interval past
it. -/
theorem pollAux_timedOut_elim (detail : Nat → TaskDetail) :
    ∀ fuel, 1 ≤ fuel → fuel ≤ 62 → ∀ e,
      pollAux detail fuel (10 * (62 - fuel)) = .timedOut e →
      (detail (10 * (62 - fuel))).status ≠ "completed" ∧
      (detail e).status ≠ "completed" ∧ 600 < e ∧ e ≤ 610 := by
  intro fuel
  induction fuel with
  | zero => intro h1 _; omega
  | succ fuel ih =>
    intro _ hle e hp
    rw [pollAux] at hp
    by_cases hc : (detail (10 * (62 - (fuel + 1)))).status = "completed"
    · rw [if_pos hc] at hp
      exact absurd hp (by simp)
    · rw [if_neg hc] at hp
      by_cases h600 : 600 < 10 * (62 - (fuel + 1))
      · rw [if_pos h600] at hp
        have he : e = 10 * (62 - (fuel + 1)) := by
          have := hp
          simp only [PollResult.timedOut.injEq] at this
          omega
        subst he
        exact ⟨hc, hc, by omega, by omega⟩
      · rw [if_neg h600] at hp
        have hf1 : 1 ≤ fuel := by omega
        have harith : 10 * (62 - (fuel + 1)) + 10 = 10 * (62 - fuel) := by omega
        rw [harith] at hp
        have := ih hf1 (by omega) e hp
        exact ⟨hc, this.2.1, this.2.2.1, this.2.2.2⟩

/-! ### Tag-lookup lemmas -/

/-- After an import for a version with no previously matching snapshot
materializes snapshot `sid` and tags it, the tag-filtered lookup is
nonempty and its first element is `sid` — whatever order the provider
returns and whether or not `sid` collided with an existing untagged id. -/
theorem matches_after_tag (l : List Snapshot) (sid v : String)
    (hl : l.filter (fun snap => decide (("rhcos_version", v) ∈ snap.tags)) = []) :
    ((tagSnapshot (ensureSnapshotPresent l sid) sid ("rhcos_version", v)).filter
        (fun snap => decide (("rhcos_version", v) ∈ snap.tags))).head?.map Snapshot.id
      = some sid := by
  set kv : String × String := ("rhcos_version", v) with hkv
  set p : Snapshot → Bool := fun snap => decide (kv ∈ snap.tags) with hp
  have hnot : ∀ x ∈ l, ¬ p x = true := List.filter_eq_nil_iff.mp hl
  set l' : List Snapshot := tagSnapshot (ensureSnapshotPresent l sid) sid kv with hl'
  have hA : ∀ y ∈ l'.filter p, y.id = sid := by
    intro y hy
    rw [List.mem_filter] at hy
    obtain ⟨hyl, hpy⟩ := hy
    rw [hl', tagSnapshot, List.mem_map] at hyl
    obtain ⟨x, hx, hfx⟩ := hyl
    by_cases hid : x.id = sid
    · rw [if_pos hid] at hfx
      rw [← hfx]
      exact hid
    · rw [if_neg hid] at hfx
      subst hfx
      have hxl : x ∈ l := by
        rw [ensureSnapshotPresent] at hx
        split at hx
        · exact hx
        · rcases List.mem_append.mp hx with h | h
          · exact h
          · exact absurd (by simp at h; rw [h]) hid
      exact absurd hpy (hnot x hxl)
  have hB : l'.filter p ≠ [] := by
    by_cases hany : l.any (fun snap => snap.id == sid) = true
    · obtain ⟨x, hxl, hxid⟩ := List.any_eq_true.mp hany
      have hxid' : x.id = sid := by simpa using hxid
      have hmem : ({ x with tags := x.tags ++ [kv] } : Snapshot) ∈ l' := by
        rw [hl', tagSnapshot]
        refine List.mem_map.mpr ⟨x, ?_, ?_⟩
        · rw [ensureSnapshotPresent, if_pos hany]
          exact hxl
        · rw [if_pos hxid']
      have hpm : p { x with tags := x.tags ++ [kv] } = true := by
        rw [hp]
        simp
      exact List.ne_nil_of_mem (List.mem_filter.mpr ⟨hmem, hpm⟩)
    · have hmem : ({ id := sid, tags := [kv] } : Snapshot) ∈ l' := by
        rw [hl', tagSnapshot]
        refine List.mem_map.mpr ⟨⟨sid, []⟩, ?_, ?_⟩
        · rw [ensureSnapshotPresent, if_neg hany]
          exact List.mem_append_right l (by simp)
        · simp
      have hpm : p ({ id := sid, tags := [kv] } : Snapshot) = true := by
        rw [hp]
        simp
      exact List.ne_nil_of_mem (List.mem_filter.mpr ⟨hmem, hpm⟩)
  cases hf : l'.filter p with
  | nil => exact absurd hf hB
  | cons a as =>
    have ha : a ∈ l'.filter p := by
      rw [hf]
      exact List.mem_cons_self a as
    simp [hA a ha]

/-- Whenever `import_snapshot` returns an id `sid`, the tag-filtered lookup
on the final state is nonempty and its first element's id is `sid`. -/
theorem import_ok_head (env : Env) (r : RHCOSRelease) (bucket : String) (s : World)
    (sid : String) (s' : World)
    (h : import_snapshot env r bucket s = (.ok sid, s')) :
    (snapshotMatches s' r.version).head?.map Snapshot.id = some sid := by
  unfold import_snapshot at h
  split at h
  · next sid0 s1 heq =>
    obtain ⟨hsid, hs'⟩ : sid0 = sid ∧ s1 = s' := by
      simpa [Prod.ext_iff] using h
    unfold existing_snapshot at heq
    split at heq
    · simp at heq
    · next snap rest hm =>
      obtain ⟨hid, hs1⟩ : snap.id = sid0 ∧ World.log s (.ec2DescribeSnapshots r.version) = s1 := by
        simpa [Prod.ext_iff] using heq
      rw [← hs', ← hs1, snapshotMatches_log, hm]
      simp [hid, hsid]
  · next s1 heq =>
    have hhs1 : snapshotMatches s r.version = [] ∧
        s1 = s.log (.ec2DescribeSnapshots r.version) := by
      unfold existing_snapshot at heq
      split at heq
      · next hm0 =>
        have hp : ((none : Option String), World.log s (.ec2DescribeSnapshots r.version))
            = (none, s1) := heq
        have h2 : World.log s (.ec2DescribeSnapshots r.version) = s1 := by
          simpa using congrArg Prod.snd hp
        exact ⟨hm0, h2.symm⟩
      · simp at heq
    obtain ⟨hm, hs1⟩ := hhs1
    split at h
    · simp at h
    · next a s3 hup =>
      have hs3 : s3.snapshots = s.snapshots := by
        split at hup
        · have hpair : ((Except.ok () : Except Err Unit),
              s1.log (.s3List bucket r.filename)) = (Except.ok a, s3) := hup
          have h2 : s1.log (.s3List bucket r.filename) = s3 := by
            simpa using congrArg Prod.snd hpair
          rw [← h2, log_snapshots, hs1, log_snapshots]
        · have : (upload env r bucket (s1.log (.s3List bucket r.filename))).2 = s3 := by
            rw [hup]
          rw [← this, upload_snapshots, log_snapshots, hs1, log_snapshots]
      split at h
      · simp at h
      · next sid2 elapsed hpoll =>
        have hsid2 : sid2 = sid := by
          simpa using congrArg Prod.fst h
        have hs' : _ = s' := congrArg Prod.snd h
        rw [← hs']
        simp only [snapshotMatches, World.logMany, World.log]
        rw [hs3]
        rw [← hsid2]
        exact matches_after_tag s.snapshots sid2 r.version (by simpa [snapshotMatches] using hm)

/-- A successful tag lookup's first element is a snapshot of the state,
carries the `rhcos_version` tag, and has the returned id. -/
theorem head_matches_mem (s : World) (v sid : String)
    (h : (snapshotMatches s v).head?.map Snapshot.id = some sid) :
    ∃ snap ∈ s.snapshots, snap.id = sid ∧ ("rhcos_version", v) ∈ snap.tags := by
  cases hm : snapshotMatches s v with
  | nil => rw [hm] at h; simp at h
  | cons snap rest =>
    rw [hm] at h
    simp only [List.head?_cons, Option.map_some'] at h
    have hid : snap.id = sid := by simpa using h
    have hmem : snap ∈ snapshotMatches s v := by
      rw [hm]
      exact List.mem_cons_self _ _
    simp only [snapshotMatches, List.mem_filter] at hmem
    exact ⟨snap, hmem.1, hid, by simpa using hmem.2⟩

/-- When the tag lookup's first element has id `sid`, `import_snapshot` is a
pure lookup: it returns `sid` and records exactly one `describe_snapshots`
call, for any oracle and any bucket. -/
theorem import_again (env2 : Env) (r : RHCOSRelease) (bucket2 : String) (s' : World)
    (sid : String)
    (h : (snapshotMatches s' r.version).head?.map Snapshot.id = some sid) :
    import_snapshot env2 r bucket2 s' = (.ok sid, s'.log (.ec2DescribeSnapshots r.version)) := by
  cases hm : snapshotMatches s' r.version with
  | nil => rw [hm] at h; simp at h
  | cons snap rest =>
    rw [hm] at h
    have hid : snap.id = sid := by simpa using h
    unfold import_snapshot existing_snapshot
    rw [hm]
    simp [hid]

theorem s3KeyCount_log (s : World) (e : Event) (b k : String) :
    s3KeyCount (s.log e) b k = s3KeyCount s b k := rfl

/-! ### Claim theorems -/

/-- Claim C10: `existing_snapshot` and `existing_image` each return the id
of the first element of the provider's (tag- resp. name-) filtered response
list when at least one resource matches, and return `None` (never an error)
when zero match; each records exactly its one describe call. -/
theorem c10_lookups_first_match_or_none (r : RHCOSRelease) (s : World) :
    existing_snapshot r s
      = ((snapshotMatches s r.version).head?.map Snapshot.id,
         s.log (.ec2DescribeSnapshots r.version)) ∧
    existing_image r s
      = ((imageMatches s r.version).head?.map Image.id,
         s.log (.ec2DescribeImages ("rhcos-" ++ r.version))) := by
  constructor
  · unfold existing_snapshot
    cases hm : snapshotMatches s r.version <;> simp
  · unfold existing_image
    cases hm : imageMatches s r.version <;> simp

/-- Claim C7: when an image named `rhcos-<version>` already exists,
`register_image` returns the id of the first matching image for either
value of the `public` flag, mutating nothing: the only effect is the single
describe-images call, identical in both runs. -/
theorem c7_existing_image_ignores_public (r : RHCOSRelease) (s : World)
    (img : Image) (rest : List Image)
    (h : imageMatches s r.version = img :: rest) :
    ∀ pub : Bool, register_image r pub s
      = (img.id, s.log (.ec2DescribeImages ("rhcos-" ++ r.version))) := by
  intro pub
  unfold register_image existing_image
  rw [h]

/-- Witness for C7 at version `4.8.2` with a pre-existing image: both the
public and the private run return `ami-existing` and add only the describe
event. -/
theorem c7_existing_image_ignores_public_witness :
    register_image rel482 true wImg
      = ("ami-existing", wImg.log (.ec2DescribeImages "rhcos-4.8.2")) ∧
    register_image rel482 false wImg
      = ("ami-existing", wImg.log (.ec2DescribeImages "rhcos-4.8.2")) :=
  ⟨c7_existing_image_ignores_public rel482 wImg img482 [] rfl true,
   c7_existing_image_ignores_public rel482 wImg img482 [] rfl false⟩

/-- Claim C2: when an image named `rhcos-<version>` already exists,
`create_ami` returns its id and performs none of the other stages: the
final state differs from the initial one only by the describe-images call
(no file write, no store write, no import task, no registration). -/
theorem c2_create_ami_short_circuit (env : Env) (r : RHCOSRelease) (bucket : String)
    (pub : Bool) (s : World) (img : Image) (rest : List Image)
    (h : imageMatches s r.version = img :: rest) :
    create_ami env r bucket pub s
      = (.ok img.id, s.log (.ec2DescribeImages ("rhcos-" ++ r.version))) := by
  unfold create_ami existing_image
  rw [h]

/-- Witness for C2: with the image `rhcos-4.8.2` pre-existing and an oracle
that would serve a 404, `create_ami` still just returns `ami-existing`. -/
theorem c2_create_ami_short_circuit_witness :
    create_ami env404 rel482 "bkt" true wImg
      = (.ok "ami-existing", wImg.log (.ec2DescribeImages "rhcos-4.8.2")) :=
  c2_create_ami_short_circuit env404 rel482 "bkt" true wImg img482 [] rfl

/-- Claim C8: construction fails for the version string `abc` (the
`(^\d)` search has no match, so `.group(1)` raises) and for `4` (the
`(^\d\.\d)` search has no match); whenever construction succeeds, the
version string matched both searches and the recorded derived fields come
from those matches. -/
theorem c8_version_construction (v : String) (rel : RHCOSRelease) :
    mkRHCOSRelease "abc" = .error .noneGroup ∧
    mkRHCOSRelease "4" = .error .noneGroup ∧
    (mkRHCOSRelease v = .ok rel →
      searchVersionX v = some rel.version_x ∧ searchVersionY v = some rel.version_y) := by
  refine ⟨rfl, rfl, ?_⟩
  intro h
  unfold mkRHCOSRelease at h
  cases hx : searchVersionX v with
  | none => rw [hx] at h; simp at h
  | some vx =>
    rw [hx] at h
    cases hy : searchVersionY v with
    | none => rw [hy] at h; simp at h
    | some vy =>
      rw [hy] at h
      simp only [Except.ok.injEq] at h
      rw [← h]
      exact ⟨rfl, rfl⟩

/-- Witness for C8 at the well-formed version `4.8.2`. -/
theorem c8_version_construction_witness :
    mkRHCOSRelease "abc" = .error .noneGroup ∧
    mkRHCOSRelease "4" = .error .noneGroup ∧
    (searchVersionX "4.8.2" = some rel482.version_x ∧
     searchVersionY "4.8.2" = some rel482.version_y) :=
  ⟨(c8_version_construction "4.8.2" rel482).1,
   (c8_version_construction "4.8.2" rel482).2.1,
   (c8_version_construction "4.8.2" rel482).2.2 rfl⟩

/-- Counterexample for claim C4 as stated: from a state where the
decompressed file exists, the compressed file is absent and no image
exists, the full pipeline (`create_ami`) still issues an HTTP request —
because `create_ami` invokes `download` unconditionally and `download`
checks only the compressed path. -/
theorem c4_counterexample :
    wUnpacked.pathExists rel482.unpack_path = true ∧
    wUnpacked.pathExists rel482.download_path = false ∧
    imageMatches wUnpacked rel482.version = [] ∧
    Event.httpGet rel482.download_url ∈ (create_ami envGood rel482 "bkt" false wUnpacked).2.events := by
  refine ⟨rfl, rfl, rfl, ?_⟩
  decide

/-- Claim C4 (amended): when the decompressed local path exists, the
`unpack` stage itself is a no-op — it returns immediately, with no state
change, no HTTP request and no decompression; in the full pipeline,
however, `create_ami` calls `download` unconditionally first, so with the
compressed path absent an HTTP request and compressed-file write still
happen, while decompression is still skipped. -/
theorem c4_unpack_noop_pipeline_still_downloads (env : Env) (r : RHCOSRelease) (s : World)
    (h : s.pathExists r.unpack_path = true) :
    unpack env r s = (.ok (), s) ∧
    Event.httpGet rel482.download_url ∈ (create_ami envGood rel482 "bkt" false wUnpacked).2.events ∧
    (create_ami envGood rel482 "bkt" false wUnpacked).2.events.filter isGunzip = [] := by
  refine ⟨?_, by decide, by decide⟩
  unfold unpack
  rw [if_pos h]

/-- Witness for the amended C4, instantiated at the state holding exactly
the decompressed `4.8.2` artifact. -/
theorem c4_unpack_noop_pipeline_still_downloads_witness :
    unpack envGood rel482 wUnpacked = (.ok (), wUnpacked) ∧
    Event.httpGet rel482.download_url ∈ (create_ami envGood rel482 "bkt" false wUnpacked).2.events ∧
    (create_ami envGood rel482 "bkt" false wUnpacked).2.events.filter isGunzip = [] :=
  c4_unpack_noop_pipeline_still_downloads envGood rel482 wUnpacked rfl

/-- Claim C6 (evidence of the code bug): when the download URL answers 404
with a non-gzip body, `download` does not fail — it writes the error body
to the compressed path and returns normally after one GET and one file
write; a second `download` run then treats that file as a valid cache hit
(complete no-op); only the later `unpack` stage fails, with a gzip error,
not an HTTP one. -/
theorem c6_download_ignores_http_status :
    (download env404 rel482 emptyWorld).files
      = [("/tmp/rhcos-4.8.2-x86_64-aws.x86_64.vmdk.gz", .raw "404 Not Found")] ∧
    (download env404 rel482 emptyWorld).events
      = [.httpGet rel482.download_url, .fileWrite rel482.download_path] ∧
    download env404 rel482 (download env404 rel482 emptyWorld)
      = download env404 rel482 emptyWorld ∧
    (unpack env404 rel482 (download env404 rel482 emptyWorld)).1
      = .error (.badGzip "/tmp/rhcos-4.8.2-x86_64-aws.x86_64.vmdk.gz") :=
  ⟨rfl, rfl, rfl, rfl⟩

/-- Counterexample for claim C1 as stated: invoking `register_image` from a
state with neither an image nor a snapshot registers an image whose root
block device references no snapshot at all (`None`), creates no snapshot,
and never starts an import task — `register_image` does not invoke the
snapshot importer. -/
theorem c1_counterexample :
    (register_image rel482 false emptyWorld).2.images.map Image.rootSnapshotId = [none] ∧
    (register_image rel482 false emptyWorld).2.snapshots = [] ∧
    (register_image rel482 false emptyWorld).2.events.filter isImportCall = [] :=
  ⟨rfl, rfl, rfl⟩

/-- Claim C1 (amended): `register_image` does not invoke the snapshot
stage: with no existing image it obtains the snapshot id solely from
the `existing_snapshot` tag lookup, so from a state with neither an image
nor a snapshot it registers an image whose root device references no
snapshot and starts no import task; the freshly-imported backing promised
by the claim holds only for the full pipeline: `create_ami` from the empty
state runs `import_snapshot` before `register_image`, and the resulting
image's root device is the freshly imported, tagged snapshot id. -/
theorem c1_register_image_lookup_only (r : RHCOSRelease) (pub : Bool) (s : World)
    (h1 : imageMatches s r.version = [])
    (h2 : snapshotMatches s r.version = []) :
    ((register_image r pub s).1 = "ami-" ++ toString s.imageCounter ∧
     (∃ img ∈ (register_image r pub s).2.images,
        img.id = (register_image r pub s).1 ∧ img.rootSnapshotId = none) ∧
     (register_image r pub s).2.events.filter isImportCall
        = s.events.filter isImportCall) ∧
    ((create_ami envGood rel482 "bkt" false emptyWorld).1 = .ok "ami-0" ∧
     (create_ami envGood rel482 "bkt" false emptyWorld).2.images.map Image.rootSnapshotId
        = [some "snap-1"] ∧
     (∃ snap ∈ (create_ami envGood rel482 "bkt" false emptyWorld).2.snapshots,
        snap.id = "snap-1" ∧ ("rhcos_version", "4.8.2") ∈ snap.tags)) := by
  refine ⟨?_, rfl, rfl, by decide⟩
  have h2' : s.snapshots.filter
      (fun snap => decide (("rhcos_version", r.version) ∈ snap.tags)) = [] := by
    simpa [snapshotMatches] using h2
  unfold register_image existing_image existing_snapshot
  simp only [h1, snapshotMatches, World.log, h2']
  cases pub with
  | false =>
    refine ⟨rfl, ?_, ?_⟩
    · exact ⟨_, List.mem_append_right _ (List.mem_singleton.mpr rfl), rfl, rfl⟩
    · simp [List.filter_append, isImportCall]
  | true =>
    refine ⟨rfl, ?_, ?_⟩
    · refine ⟨_, List.mem_map_of_mem _
        (List.mem_append_right _ (List.mem_singleton.mpr rfl)), ?_, ?_⟩
      · simp
      · simp
    · simp [List.filter_append, isImportCall]

/-- Witness for the amended C1 at the empty state for version `4.8.2`. -/
theorem c1_register_image_lookup_only_witness :
    ((register_image rel482 false emptyWorld).1 = "ami-" ++ toString emptyWorld.imageCounter ∧
     (∃ img ∈ (register_image rel482 false emptyWorld).2.images,
        img.id = (register_image rel482 false emptyWorld).1 ∧ img.rootSnapshotId = none) ∧
     (register_image rel482 false emptyWorld).2.events.filter isImportCall
        = emptyWorld.events.filter isImportCall) ∧
    ((create_ami envGood rel482 "bkt" false emptyWorld).1 = .ok "ami-0" ∧
     (create_ami envGood rel482 "bkt" false emptyWorld).2.images.map Image.rootSnapshotId
        = [some "snap-1"] ∧
     (∃ snap ∈ (create_ami envGood rel482 "bkt" false emptyWorld).2.snapshots,
        snap.id = "snap-1" ∧ ("rhcos_version", "4.8.2") ∈ snap.tags)) :=
  c1_register_image_lookup_only rel482 false emptyWorld rfl rfl

/-- Claim C5: whenever `import_snapshot` returns a snapshot id for a
version, the final state holds a snapshot with that id tagged
`rhcos_version=<version>`, and a repeated call finds and returns that id
purely through the tag-filtered lookup: it works for any oracle and any
bucket (so it uses no task id and no cached local state) and its only
effect is the one describe-snapshots call. -/
theorem c5_snapshot_tag_linkage (env : Env) (r : RHCOSRelease) (bucket : String)
    (s : World) (sid : String) (s' : World)
    (h : import_snapshot env r bucket s = (.ok sid, s')) :
    (∃ snap ∈ s'.snapshots, snap.id = sid ∧ ("rhcos_version", r.version) ∈ snap.tags) ∧
    ∀ env2 bucket2, import_snapshot env2 r bucket2 s'
        = (.ok sid, s'.log (.ec2DescribeSnapshots r.version)) := by
  have hh := import_ok_head env r bucket s sid s' h
  exact ⟨head_matches_mem s' r.version sid hh,
         fun env2 bucket2 => import_again env2 r bucket2 s' sid hh⟩

/-- Witness for C5: a concrete import for `4.8.2` (stored object present,
task completing at the first poll) produces the tagged snapshot `snap-1`,
which any later call finds by tag alone. -/
theorem c5_snapshot_tag_linkage_witness :
    (∃ snap ∈ (import_snapshot envGood rel482 "bkt" wS3).2.snapshots,
        snap.id = "snap-1" ∧ ("rhcos_version", rel482.version) ∈ snap.tags) ∧
    ∀ env2 bucket2,
      import_snapshot env2 rel482 bucket2 (import_snapshot envGood rel482 "bkt" wS3).2
        = (.ok "snap-1", (import_snapshot envGood rel482 "bkt" wS3).2.log
            (.ec2DescribeSnapshots rel482.version)) :=
  c5_snapshot_tag_linkage envGood rel482 "bkt" wS3 "snap-1" _ rfl

/-- Counterexample for claim C3 as stated: with a task that never
completes, the raise happens at elapsed second 610, but the raised error
carries only the task id and the constant `max_time = 10` minutes
(600 seconds) — it does not carry the elapsed time. -/
theorem c3_counterexample :
    (import_snapshot envNever rel482 "bkt" wS3).1
      = .error (.importTimeout "import-snap-0" 10) ∧
    pollFrom (envNever.taskDetail 0) = .timedOut 610 ∧
    10 * 60 ≠ 610 :=
  ⟨rfl, rfl, by norm_num⟩

/-- Claim C3 (amended): if the import task's status never becomes
`completed`, the poll loop fails fatally at elapsed second 610 — at or
after the 600-second (10-minute) deadline and at most one 10-second poll
interval beyond it; the raised error carries the task id and the constant
10-minute maximum (not the measured elapsed time), and no cancellation of
the server-side task is ever attempted. -/
theorem c3_timeout_boundary (env : Env) (r : RHCOSRelease) (bucket : String) (s : World)
    (h1 : snapshotMatches s r.version = [])
    (h2 : s3KeyCount s bucket r.filename > 0)
    (h3 : ∀ u, (env.taskDetail s.taskCounter u).status ≠ "completed") :
    (import_snapshot env r bucket s).1
        = .error (.importTimeout ("import-snap-" ++ toString s.taskCounter) 10) ∧
    pollFrom (env.taskDetail s.taskCounter) = .timedOut 610 ∧
    600 ≤ 610 ∧ 610 ≤ 600 + 10 ∧
    (∃ new, (import_snapshot env r bucket s).2.events = s.events ++ new ∧
       ∀ tid, Event.ec2CancelImportTask tid ∉ new) := by
  have hpoll : pollFrom (env.taskDetail s.taskCounter) = .timedOut 610 := by
    have h62 := pollAux_timedOut_of_never (env.taskDetail s.taskCounter)
      (fun u _ => h3 u) 62 (by norm_num) (by norm_num)
    norm_num at h62
    simpa [pollFrom] using h62
  have h1' : s.snapshots.filter
      (fun snap => decide (("rhcos_version", r.version) ∈ snap.tags)) = [] := by
    simpa [snapshotMatches] using h1
  have h2' : 0 < (s.s3.filter
      (fun o => o.bucket == bucket && strStartsWith r.filename o.key)).length := by
    simpa [s3KeyCount] using h2
  unfold import_snapshot existing_snapshot
  simp only [snapshotMatches, World.log, h1', s3KeyCount, gt_iff_lt, h2', if_true, hpoll]
  refine ⟨trivial, trivial, by norm_num, by norm_num, ?_⟩
  refine ⟨[Event.ec2DescribeSnapshots r.version, Event.s3List bucket r.filename,
           Event.ec2ImportSnapshot bucket r.filename]
          ++ List.replicate 62 (Event.ec2DescribeTask ("import-snap-" ++ toString s.taskCounter)),
          ?_, ?_⟩
  · simp [World.logMany, World.log, List.append_assoc]
  · intro tid
    simp [List.mem_append, List.mem_replicate]

/-- Witness for the amended C3: the never-completing oracle, the `4.8.2`
release and the state holding the stored artifact. -/
theorem c3_timeout_boundary_witness :
    (import_snapshot envNever rel482 "bkt" wS3).1
        = .error (.importTimeout ("import-snap-" ++ toString wS3.taskCounter) 10) ∧
    pollFrom (envNever.taskDetail wS3.taskCounter) = .timedOut 610 ∧
    600 ≤ 610 ∧ 610 ≤ 600 + 10 ∧
    (∃ new, (import_snapshot envNever rel482 "bkt" wS3).2.events = wS3.events ++ new ∧
       ∀ tid, Event.ec2CancelImportTask tid ∉ new) :=
  c3_timeout_boundary envNever rel482 "bkt" wS3 rfl (by decide)
    (fun u => by simp [envNever])

/-- Claim C9: in the poll loop the status is queried before the deadline is
tested on every iteration — whenever the loop times out, the status had
been checked at second 0 and again at the raising second (both observed
not `completed`), so at least one status check precedes any timeout; and
an iteration that observes `completed` at second 610, when the 600-second
deadline has already elapsed, still tags the produced snapshot and returns
its id (completion takes precedence over timeout). -/
theorem c9_status_check_precedes_timeout (env : Env) (r : RHCOSRelease) (bucket : String)
    (s : World)
    (h1 : snapshotMatches s r.version = [])
    (h2 : s3KeyCount s bucket r.filename > 0) :
    (∀ detail e, pollFrom detail = .timedOut e →
        (detail 0).status ≠ "completed" ∧ (detail e).status ≠ "completed" ∧
        600 < e ∧ e ≤ 610) ∧
    ((∀ u, u ≤ 600 → (env.taskDetail s.taskCounter u).status ≠ "completed") →
     (env.taskDetail s.taskCounter 610).status = "completed" →
     (import_snapshot env r bucket s).1
        = .ok (env.taskDetail s.taskCounter 610).snapshotId ∧
     ∃ snap ∈ (import_snapshot env r bucket s).2.snapshots,
        snap.id = (env.taskDetail s.taskCounter 610).snapshotId ∧
        ("rhcos_version", r.version) ∈ snap.tags) := by
  constructor
  · intro detail e hto
    have hto' : pollAux detail 62 (10 * (62 - 62)) = .timedOut e := by
      norm_num
      simpa [pollFrom] using hto
    have h62 := pollAux_timedOut_elim detail 62 (by norm_num) (by norm_num) e hto'
    norm_num at h62
    exact h62
  · intro hb hc
    have hpoll : pollFrom (env.taskDetail s.taskCounter)
        = .completed (env.taskDetail s.taskCounter 610).snapshotId 610 := by
      have h62 := pollAux_completed_late (env.taskDetail s.taskCounter)
        (fun u hu => hb u hu) hc 62 (by norm_num) (by norm_num)
      norm_num at h62
      simpa [pollFrom] using h62
    have h1' : s.snapshots.filter
        (fun snap => decide (("rhcos_version", r.version) ∈ snap.tags)) = [] := by
      simpa [snapshotMatches] using h1
    have h2' : 0 < (s.s3.filter
        (fun o => o.bucket == bucket && strStartsWith r.filename o.key)).length := by
      simpa [s3KeyCount] using h2
    have hres : (import_snapshot env r bucket s).1
        = .ok (env.taskDetail s.taskCounter 610).snapshotId := by
      unfold import_snapshot existing_snapshot
      simp only [snapshotMatches, World.log, h1', s3KeyCount, gt_iff_lt, h2', if_true, hpoll]
    have hpair : import_snapshot env r bucket s
        = ((import_snapshot env r bucket s).1, (import_snapshot env r bucket s).2) := rfl
    rw [hres] at hpair
    have hh := import_ok_head env r bucket s _ _ hpair
    exact ⟨hres, head_matches_mem _ _ _ hh⟩

/-- Witness for C9: a concrete never-completing status run times out at
610 seconds with both checks observed, and the late-completing oracle
(`completed` first visible at second 610) still yields a tagged snapshot. -/
theorem c9_status_check_precedes_timeout_witness :
    ((envNever.taskDetail 0 0).status ≠ "completed" ∧
     (envNever.taskDetail 0 610).status ≠ "completed" ∧ 600 < 610 ∧ 610 ≤ 610) ∧
    ((import_snapshot envLate rel482 "bkt" wS3).1
        = .ok (envLate.taskDetail wS3.taskCounter 610).snapshotId ∧
     ∃ snap ∈ (import_snapshot envLate rel482 "bkt" wS3).2.snapshots,
        snap.id = (envLate.taskDetail wS3.taskCounter 610).snapshotId ∧
        ("rhcos_version", rel482.version) ∈ snap.tags) := by
  constructor
  · exact (c9_status_check_precedes_timeout envLate rel482 "bkt" wS3 rfl (by decide)).1
      (envNever.taskDetail 0) 610 rfl
  · exact (c9_status_check_precedes_timeout envLate rel482 "bkt" wS3 rfl (by decide)).2
      (fun u hu => by
        simp only [envLate]
        rw [if_neg (by omega : ¬ 610 ≤ u)]
        simp)
      (by decide)
